import Mathlib

/-!
Shallow embedding of the Radikari chat widget lifecycle core
(`src/radikari-chat.ts` / its duplicate component variant, `src/lib/api.ts`,
`src/lib/storage.ts`).

The embedding covers:
* the stream decoder of `_processStream` (line splitting on `"\n"`,
  the `data: ` marker, defensive JSON parsing, `text-delta` extraction);
* the tenant-scoped session storage wrapper `Storage`;
* the transport client `ApiClient` (outcomes of `createThread` and
  `sendMessageStream`, translated to typed errors);
* the controller `_sendMessage` / `_sendMessageWithNewThread` state machine,
  with the network modelled by an environment scripting the outcome of each
  remote call, and JavaScript exceptions modelled explicitly.
-/

/-! Section: JavaScript string primitives used by the widget -/

/-- JS whitespace test (the characters relevant to `String.prototype.trim`
for the inputs handled here). -/
def isJsWs (c : Char) : Bool :=
  c = ' ' || c = '\t' || c = '\n' || c = '\r'

/-- Drop leading whitespace characters. -/
def dropWs : List Char → List Char
  | [] => []
  | c :: cs => if isJsWs c then dropWs cs else c :: cs

/-- Embedding of JS `text.trim()`. -/
def jsTrim (s : String) : String :=
  String.mk ((dropWs ((dropWs s.data).reverse)).reverse)

/-- Split a character list at every `'\n'`, JS `split("\n")` semantics:
the empty input yields one empty segment, a trailing newline yields a
trailing empty segment. -/
def splitNl : List Char → List (List Char)
  | [] => [[]]
  | c :: cs =>
    if c = '\n' then [] :: splitNl cs
    else
      match splitNl cs with
      | [] => [[c]]
      | l :: ls => (c :: l) :: ls

/-- Embedding of JS `chunk.split("\n")`. -/
def splitLines (s : String) : List String :=
  (splitNl s.data).map String.mk

/-- Prefix test on character lists, JS `line.startsWith(marker)`. -/
def startsWithChars : List Char → List Char → Bool
  | [], _ => true
  | _ :: _, [] => false
  | a :: as, b :: bs => a = b && startsWithChars as bs

/-! Section: Defensive JSON parsing (`JSON.parse` on flat string objects)

`_processStream` feeds each `data: ` payload to `JSON.parse` and swallows
any parse failure.  The payloads the protocol uses are flat JSON objects
with string keys and string values (`{"type":"text-delta","delta":"…"}`),
so the embedding parses exactly that shape; any other input (truncated
JSON, malformed text, non-object payloads) parses to `none`, which the
decoder ignores — matching the swallow-and-continue behaviour of the
source's `try { JSON.parse … } catch { /* ignore */ }`. -/

/-- Skip JSON inter-token whitespace. -/
def skipWs : List Char → List Char
  | [] => []
  | c :: cs => if isJsWs c then skipWs cs else c :: cs

/-- Parse the body of a JSON string literal after the opening quote,
handling the simple escapes; returns the decoded content and the rest
after the closing quote. -/
def parseStringBody (acc : List Char) : List Char → Option (String × List Char)
  | [] => none
  | '\x22' :: rest => some (String.mk acc.reverse, rest)
  | '\\' :: c :: rest =>
    match c with
    | '\x22' => parseStringBody ('\x22' :: acc) rest
    | '\\' => parseStringBody ('\\' :: acc) rest
    | '/' => parseStringBody ('/' :: acc) rest
    | 'n' => parseStringBody ('\n' :: acc) rest
    | 't' => parseStringBody ('\t' :: acc) rest
    | 'r' => parseStringBody ('\r' :: acc) rest
    | _ => none
  | '\\' :: [] => none
  | c :: rest => parseStringBody (c :: acc) rest

/-- Parse one `"key" : "value"` member. -/
def parsePair (cs : List Char) : Option ((String × String) × List Char) :=
  match skipWs cs with
  | '\x22' :: rest =>
    match parseStringBody [] rest with
    | some (k, rest2) =>
      match skipWs rest2 with
      | ':' :: rest3 =>
        match skipWs rest3 with
        | '\x22' :: rest4 =>
          match parseStringBody [] rest4 with
          | some (v, rest5) => some ((k, v), rest5)
          | none => none
        | _ => none
      | _ => none
    | none => none
  | _ => none

/-- Parse a comma-separated member list up to the closing `'\x7d'`.
Fuelled by the input length. -/
def parseMembers : Nat → List Char → Option (List (String × String) × List Char)
  | 0, _ => none
  | fuel + 1, cs =>
    match parsePair cs with
    | none => none
    | some (kv, rest) =>
      match skipWs rest with
      | ',' :: rest2 =>
        match parseMembers fuel rest2 with
        | some (l, r) => some (kv :: l, r)
        | none => none
      | '\x7d' :: rest2 => some ([kv], rest2)
      | _ => none

/-- Embedding of `JSON.parse` restricted to flat string-valued objects;
`none` models a thrown `SyntaxError` (or a shape outside the protocol). -/
def parseJsonFlat (s : String) : Option (List (String × String)) :=
  match skipWs s.data with
  | '\x7b' :: rest =>
    match skipWs rest with
    | '\x7d' :: rest2 => if skipWs rest2 = [] then some [] else none
    | _ =>
      match parseMembers (s.length + 1) rest with
      | some (mems, rest2) => if skipWs rest2 = [] then some mems else none
      | none => none
  | _ => none

/-- JS object property lookup after `JSON.parse`: the last duplicate of a
key wins. -/
def jsonLookup (obj : List (String × String)) (k : String) : Option String :=
  match obj with
  | [] => none
  | (k', v) :: rest =>
    match jsonLookup rest k with
    | some v' => some v'
    | none => if k' = k then some v else none

/-! Section: The stream decoder of `_processStream` -/

/-- The characters of the SSE marker `"data: "`. -/
def dataMarker : List Char := ['d', 'a', 't', 'a', ':', ' ']

/-- What one decoded line contributes: lines starting with `data: ` whose
payload parses to an object with `type == "text-delta"` and a truthy
(non-empty) `delta` yield that delta; every other line yields nothing.
Mirrors the body of the `for (const line of lines)` loop. -/
def extractDelta (line : String) : Option String :=
  if startsWithChars dataMarker line.data then
    match parseJsonFlat (String.mk (line.data.drop 6)) with
    | some obj =>
      match jsonLookup obj "type", jsonLookup obj "delta" with
      | some ty, some d => if ty = "text-delta" ∧ d ≠ "" then some d else none
      | _, _ => none
    | none => none
  else none

/-- Apply one line to the accumulated assistant text
(`assistantText += data.delta`). -/
def applyLine (a : String) (line : String) : String :=
  match extractDelta line with
  | some d => a ++ d
  | none => a

/-- Process a list of already-split lines in order. -/
def processLines (acc : String) (lines : List String) : String :=
  lines.foldl applyLine acc

/-- Process one decoded chunk: split on `"\n"` and handle each line.
The source keeps no carry-over buffer: every segment of the split,
including a trailing partial line, is handled immediately. -/
def processChunk (acc chunk : String) : String :=
  processLines acc (splitLines chunk)

/-- The accumulated assistant text after the read loop of
`_processStream` consumes the given chunks. -/
def processChunks (chunks : List String) : String :=
  chunks.foldl processChunk ""

/-- The deltas one chunk contributes, in decode order. -/
def chunkDeltas (chunk : String) : List String :=
  (splitLines chunk).filterMap extractDelta

/-- In-order concatenation of a list of strings. -/
def concatAll (l : List String) : String :=
  l.foldl (· ++ ·) ""

/-! Section: Session storage (`src/lib/storage.ts`)

`sessionStorage` is modelled as an association list of key/value pairs
plus an availability flag: when the backing store is unavailable every
access throws in JS, and the wrapper's `try`/`catch` turns reads into
`null` and drops writes — modelled by the `available = false` branches. -/

/-- Embedding of `sessionStorage.getItem`. -/
def kvGet (k : String) : List (String × String) → Option String
  | [] => none
  | (k', v) :: rest => if k' = k then some v else kvGet k rest

/-- Embedding of `sessionStorage.setItem` (replaces an existing key). -/
def kvSet (k v : String) : List (String × String) → List (String × String)
  | [] => [(k, v)]
  | (k', v') :: rest => if k' = k then (k, v) :: rest else (k', v') :: kvSet k v rest

/-- Embedding of `sessionStorage.removeItem`. -/
def kvRemove (k : String) : List (String × String) → List (String × String)
  | [] => []
  | (k', v) :: rest => if k' = k then kvRemove k rest else (k', v) :: kvRemove k rest

/-- The per-tab session store, with its availability. -/
structure SessionStore where
  available : Bool
  items : List (String × String)
deriving DecidableEq, Repr

/-- Model of `Storage.getThreadKey`: the namespaced key for a tenant. -/
def Storage.getThreadKey (tenantId : String) : String :=
  "radikari_chat" ++ ":thread_id:" ++ tenantId

/-- Model of `Storage.getThreadId`: read, returning `null` when storage throws. -/
def Storage.getThreadId (st : SessionStore) (tenantId : String) : Option String :=
  if st.available then kvGet (Storage.getThreadKey tenantId) st.items else none

/-- Model of `Storage.setThreadId`: write, dropped when storage throws. -/
def Storage.setThreadId (st : SessionStore) (tenantId threadId : String) : SessionStore :=
  if st.available then
    { st with items := kvSet (Storage.getThreadKey tenantId) threadId st.items }
  else st

/-- Model of `Storage.clearThreadId`: remove, dropped when storage throws. -/
def Storage.clearThreadId (st : SessionStore) (tenantId : String) : SessionStore :=
  if st.available then
    { st with items := kvRemove (Storage.getThreadKey tenantId) st.items }
  else st

/-! Section: Transport client (`src/lib/api.ts`)

Remote interactions are modelled by outcome values describing what the
network returned; `ApiClient` translates them into either a result or a
thrown `JsError`, exactly following the status/shape checks of the
source. -/

/-- A thrown JS exception as the controller distinguishes them:
`ApiError` (with `status` and `message`) or an `AbortError`. -/
inductive JsError
  | apiError (status : Nat) (message : String)
  | abortError
deriving DecidableEq, Repr

/-- How a response stream ends: normal completion, or the reader's next
`read()` rejecting with `AbortError` after the controller aborted. -/
inductive StreamEnd
  | complete
  | aborted
deriving DecidableEq, Repr

/-- Outcome of the `createThread` fetch: an HTTP-ok response whose JSON
body has an optional `content` field with an optional `threadId`
(`none` models the field missing, an empty string models a falsy id),
a non-ok status, or an abort. -/
inductive CreateOutcome
  | success (status : Nat) (content : Option (Option String))
  | failure (status : Nat)
  | abortedReq
deriving DecidableEq, Repr

/-- Outcome of the `sendMessageStream` fetch: an ok response whose body
delivers the given decoded chunks and then ends as described, a non-ok
status with the response's error text, or an abort. -/
inductive SendOutcome
  | success (chunks : List String) (ending : StreamEnd)
  | failure (status : Nat) (errorText : String)
  | abortedReq
deriving DecidableEq, Repr

/-- Model of `ApiClient.createThread`: non-ok throws `ApiError(status, "Failed to
create chat thread")`; a body without `content` or without a truthy
`content.threadId` throws the corresponding `ApiError`; otherwise the
thread id is returned. -/
def ApiClient.createThread : CreateOutcome → Except JsError String
  | .failure s => .error (.apiError s "Failed to create chat thread")
  | .abortedReq => .error .abortError
  | .success s none => .error (.apiError s "Invalid thread creation response")
  | .success s (some none) => .error (.apiError s "No threadId in response")
  | .success s (some (some tid)) =>
    if tid = "" then .error (.apiError s "No threadId in response")
    else .ok tid

/-- Model of `ApiClient.sendMessageStream`: status 404 throws
`ApiError(404, "Thread expired or not found")`; any other non-ok status
throws `ApiError(status, errorText || "Failed to send message")`;
otherwise the live body (its chunks and ending) is returned. -/
def ApiClient.sendMessageStream : SendOutcome → Except JsError (List String × StreamEnd)
  | .failure s t =>
    if s = 404 then .error (.apiError 404 "Thread expired or not found")
    else .error (.apiError s (if t = "" then "Failed to send message" else t))
  | .abortedReq => .error .abortError
  | .success chunks ending => .ok (chunks, ending)

/-! Section: The conversation lifecycle controller (`RadikariChat._sendMessage`)

The component's reactive fields that the lifecycle logic touches are
collected in `ChatState`.  A submission is a deterministic function of
that state and an environment scripting the outcome of each remote call
(indexed by call count).  JS exception flow (`try`/`catch`/`finally`) is
made explicit; the bounded recursion through `_sendMessageWithNewThread`
is driven by a fuel parameter (the recursion is re-entrant at most once,
see `sendMessage_of_isStreaming`). -/

/-- Message roles of `ChatMessage` in `src/lib/api.ts`. -/
inductive Role
  | user
  | assistant
  | system
deriving DecidableEq, Repr

/-- Messages as `ChatMessage` records with a role and content. -/
structure ChatMessage where
  role : Role
  content : String
deriving DecidableEq, Repr

/-- The component fields read or written by `_sendMessage`,
`_sendMessageWithNewThread` and `_processStream`. -/
structure ChatState where
  messages : List ChatMessage
  isStreaming : Bool
  error : Option String
  inputValue : String
  store : SessionStore
  abortOpen : Bool
  tenantId : String
  apiBaseUrl : String
deriving DecidableEq, Repr

/-- The scripted network: the outcome of the n-th `createThread` fetch and
of the n-th `sendMessageStream` fetch. -/
structure Env where
  creates : Nat → CreateOutcome
  sends : Nat → SendOutcome

/-- Observable remote calls, for counting and ordering. -/
inductive Event
  | createThreadCall
  | sendStreamCall (threadId : String)
deriving DecidableEq, Repr

/-- A running controller: its state, the number of `createThread` and
`sendMessageStream` calls made so far, and the call trace in order. -/
structure RunS where
  st : ChatState
  cIdx : Nat
  sIdx : Nat
  trace : List Event
deriving Repr

/-- Result of the outer `try` block of `_sendMessage`: normal completion,
or a JS exception propagating to the outer `catch`. -/
inductive TryResult
  | ok (r : RunS)
  | thrown (r : RunS) (e : JsError)

/-- Embedding of `this.messages[msgIndex].content = assistantText`: in-place
update of one list element's content. -/
def setContent (msgs : List ChatMessage) (i : Nat) (s : String) : List ChatMessage :=
  msgs.set i { role := (msgs.getD i { role := .assistant, content := "" }).role, content := s }

/-- Step 1 of the `try` block: resolve the thread id.  Reads the session
store; when the id is missing, empty or the `"undefined"` sentinel, calls
`createThread` and — if the returned id is truthy — persists it.  A
failure of `createThread` is rethrown (the inner `try` only logs). -/
def threadResolve (env : Env) (r : RunS) : Except (RunS × JsError) (RunS × String) :=
  let createBranch : Except (RunS × JsError) (RunS × String) :=
    let r1 : RunS := { r with cIdx := r.cIdx + 1, trace := r.trace ++ [.createThreadCall] }
    match ApiClient.createThread (env.creates r.cIdx) with
    | .error e => .error (r1, e)
    | .ok tid =>
      if tid = "" then .ok (r1, tid)
      else
        .ok ({ r1 with st := { r1.st with
                 store := Storage.setThreadId r1.st.store r1.st.tenantId tid } }, tid)
  match Storage.getThreadId r.st.store r.st.tenantId with
  | none => createBranch
  | some t => if t = "" ∨ t = "undefined" then createBranch else .ok (r, t)

/-- The outer `catch` and `finally` of `_sendMessage`: an `AbortError`
returns silently, an `ApiError` sets the user-visible error
(`e.message || "Gagal mengirim pesan"`); the `finally` always resets
`isStreaming` and drops the abort controller. -/
def applyOuterCatchFinally (tr : TryResult) : RunS :=
  match tr with
  | .ok r => { r with st := { r.st with isStreaming := false, abortOpen := false } }
  | .thrown r e =>
    let st' :=
      match e with
      | .abortError => r.st
      | .apiError _ m =>
        { r.st with error := some (if m = "" then "Gagal mengirim pesan" else m) }
    { r with st := { st' with isStreaming := false, abortOpen := false } }

/-- Model of `_sendMessage`, fuelled.  The guard rejects blank text, an in-flight
stream, or missing configuration.  An accepted submission appends the
optimistic user message, resolves the thread, appends the empty assistant
placeholder, opens the stream and applies its deltas; a 404 `ApiError`
from the send triggers `_sendMessageWithNewThread` (drop the placeholder,
restore the input value, recurse); every other exception reaches the
outer `catch`; the `finally` always runs last. -/
def sendMessage (env : Env) : Nat → RunS → RunS
  | 0, r => r
  | fuel + 1, r =>
    let text := jsTrim r.st.inputValue
    if text = "" ∨ r.st.isStreaming = true ∨ r.st.tenantId = "" ∨ r.st.apiBaseUrl = "" then
      r
    else
      let r0 : RunS := { r with st := { r.st with
        isStreaming := true
        error := none
        inputValue := ""
        messages := r.st.messages ++ [{ role := .user, content := text }]
        abortOpen := true } }
      let tryRes : TryResult :=
        match threadResolve env r0 with
        | .error (r1, e) => .thrown r1 e
        | .ok (r1, threadId) =>
          let r2 : RunS := { r1 with st := { r1.st with
            messages := r1.st.messages ++ [{ role := .assistant, content := "" }] } }
          let msgIndex := r2.st.messages.length - 1
          let r3 : RunS := { r2 with
            sIdx := r2.sIdx + 1
            trace := r2.trace ++ [.sendStreamCall threadId] }
          match ApiClient.sendMessageStream (env.sends r2.sIdx) with
          | .error e =>
            match e with
            | .apiError s m =>
              if s = 404 then
                let st4 := { r3.st with
                  store := Storage.clearThreadId r3.st.store r3.st.tenantId }
                let st5 := { st4 with
                  messages := st4.messages.dropLast
                  inputValue := text }
                .ok (sendMessage env fuel { r3 with st := st5 })
              else .thrown r3 (.apiError s m)
            | .abortError => .thrown r3 .abortError
          | .ok (chunks, ending) =>
            let r4 : RunS := { r3 with st := { r3.st with
              messages := setContent r3.st.messages msgIndex (processChunks chunks) } }
            match ending with
            | .complete => .ok r4
            | .aborted => .thrown r4 .abortError
      applyOuterCatchFinally tryRes

/-- A fresh run of a submission from a component state. -/
def initRun (st : ChatState) : RunS := ⟨st, 0, 0, []⟩

/-- One user-initiated submission (`_sendMessage` entered from the UI);
fuel 2 covers the at-most-once recursion through
`_sendMessageWithNewThread`. -/
def submit (env : Env) (st : ChatState) : RunS :=
  sendMessage env 2 (initRun st)

/-! Section: General lemmas about the embedding -/

/-- Folding string concatenation from any seed factors the seed out. -/
theorem foldl_append_str (l : List String) (x : String) :
    l.foldl (· ++ ·) x = x ++ concatAll l := by
  induction l generalizing x with
  | nil => simp [concatAll, String.append_empty]
  | cons d rest ih =>
    simp only [List.foldl_cons, concatAll, ih (x ++ d), ih ("" ++ d)]
    rw [String.empty_append, String.append_assoc]

/-- Concatenation distributes over list append. -/
theorem concatAll_append (l1 l2 : List String) :
    concatAll (l1 ++ l2) = concatAll l1 ++ concatAll l2 := by
  show (l1 ++ l2).foldl (· ++ ·) "" = _
  rw [List.foldl_append, foldl_append_str]
  rfl

/-- Processing lines appends exactly the extracted deltas, in order. -/
theorem processLines_eq (lines : List String) (acc : String) :
    processLines acc lines = acc ++ concatAll (lines.filterMap extractDelta) := by
  induction lines generalizing acc with
  | nil => simp [processLines, concatAll, String.append_empty]
  | cons l rest ih =>
    simp only [processLines, List.foldl_cons] at *
    rw [ih (applyLine acc l)]
    cases h : extractDelta l with
    | none => simp [applyLine, h]
    | some d =>
      simp only [applyLine, h, List.filterMap_cons]
      have hd : concatAll (d :: rest.filterMap extractDelta)
          = d ++ concatAll (rest.filterMap extractDelta) := by
        show List.foldl _ _ _ = _
        rw [List.foldl_cons, foldl_append_str, String.empty_append]
      rw [hd, String.append_assoc]

/-- All deltas a chunk sequence carries, in decode order. -/
def allDeltas (chunks : List String) : List String :=
  (chunks.map chunkDeltas).flatten

/-- The decoded text of a chunk sequence is the in-order concatenation of
the text-delta payloads it carries. -/
theorem processChunks_eq (chunks : List String) :
    processChunks chunks = concatAll (allDeltas chunks) := by
  suffices h : ∀ acc, chunks.foldl processChunk acc = acc ++ concatAll (allDeltas chunks) by
    have := h ""
    rw [String.empty_append] at this
    exact this
  induction chunks with
  | nil => intro acc; simp [allDeltas, concatAll, String.append_empty]
  | cons c rest ih =>
    intro acc
    simp only [List.foldl_cons, ih (processChunk acc c)]
    simp only [allDeltas, List.map_cons, List.flatten_cons, concatAll_append]
    rw [show processChunk acc c = acc ++ concatAll (chunkDeltas c) from
      processLines_eq (splitLines c) acc, String.append_assoc]

/-- Updating the content of a freshly appended last element. -/
theorem setContent_append_last (xs : List ChatMessage) (c s : String) :
    setContent (xs ++ [{ role := .assistant, content := c }]) xs.length s
      = xs ++ [{ role := .assistant, content := s }] := by
  induction xs with
  | nil => simp [setContent]
  | cons x rest ih =>
    simp only [List.cons_append, setContent, List.length_cons, List.set_cons_succ,
      List.getD_cons_succ] at *
    exact congrArg (List.cons x) ih

/-- A re-entrant `_sendMessage` is rejected by the `isStreaming` guard,
whatever the fuel. -/
theorem sendMessage_of_isStreaming (env : Env) (fuel : Nat) (r : RunS)
    (h : r.st.isStreaming = true) : sendMessage env fuel r = r := by
  cases fuel with
  | zero => rfl
  | succ n => simp [sendMessage, h]

/-- The outer `finally` always clears the streaming flag and the abort
controller. -/
theorem applyOuterCatchFinally_flags (tr : TryResult) :
    (applyOuterCatchFinally tr).st.isStreaming = false ∧
      (applyOuterCatchFinally tr).st.abortOpen = false := by
  cases tr with
  | ok r => simp [applyOuterCatchFinally]
  | thrown r e => cases e <;> simp [applyOuterCatchFinally]

/-- Clearing then reading the raw key-value store yields nothing. -/
theorem kvGet_kvRemove (k : String) (l : List (String × String)) :
    kvGet k (kvRemove k l) = none := by
  induction l with
  | nil => rfl
  | cons p rest ih =>
    obtain ⟨k', v⟩ := p
    by_cases h : k' = k
    · simp [kvRemove, h, ih]
    · simp [kvRemove, kvGet, h, ih]

/-- Updating the freshly appended last element after a user message. -/
theorem setContent_append_two (xs : List ChatMessage) (u : ChatMessage) (c s : String) :
    setContent (xs ++ [u, { role := .assistant, content := c }]) (xs.length + 1) s
      = xs ++ [u, { role := .assistant, content := s }] := by
  have h := setContent_append_last (xs ++ [u]) c s
  simpa [List.append_assoc] using h

/-- Accepted submission with a valid stored thread id: whatever the stream
does (complete or abort mid-stream), the user message and the assistant
message carrying the processed deltas are appended, no error is set, the
flags are released, exactly one send call with the stored id is made, and
the store is untouched. -/
theorem submit_stored_success (env : Env) (st : ChatState) (tid : String)
    (chunks : List String) (ending : StreamEnd)
    (htext : ¬ jsTrim st.inputValue = "")
    (hidle : st.isStreaming = false)
    (hten : ¬ st.tenantId = "")
    (hurl : ¬ st.apiBaseUrl = "")
    (hget : Storage.getThreadId st.store st.tenantId = some tid)
    (h1 : ¬ tid = "") (h2 : ¬ tid = "undefined")
    (hsend : env.sends 0 = .success chunks ending) :
    (submit env st).st.messages =
      st.messages ++ [{ role := .user, content := jsTrim st.inputValue },
        { role := .assistant, content := processChunks chunks }] ∧
    (submit env st).st.error = none ∧
    (submit env st).st.isStreaming = false ∧
    (submit env st).st.abortOpen = false ∧
    (submit env st).trace = [Event.sendStreamCall tid] ∧
    (submit env st).st.store = st.store := by
  simp only [submit, sendMessage, initRun, threadResolve, hget, hsend,
    ApiClient.sendMessageStream, applyOuterCatchFinally, hidle, htext, hten, hurl,
    h1, h2, if_neg, if_false, Bool.false_eq_true, or_self, or_false, false_or,
    ite_false, ite_true, reduceCtorEq]
  cases ending <;>
    simp [setContent_append_two, List.append_assoc]

/-- Accepted submission with a missing or invalid stored thread id and a
well-formed creation response: one `createThread` call is made before the
single `sendMessageStream` call, the returned id is persisted, and the
message list grows by the user and assistant messages. -/
theorem submit_create_success (env : Env) (st : ChatState) (s0 : Nat) (tid : String)
    (chunks : List String) (ending : StreamEnd)
    (htext : ¬ jsTrim st.inputValue = "")
    (hidle : st.isStreaming = false)
    (hten : ¬ st.tenantId = "")
    (hurl : ¬ st.apiBaseUrl = "")
    (hget : Storage.getThreadId st.store st.tenantId = none ∨
            Storage.getThreadId st.store st.tenantId = some "" ∨
            Storage.getThreadId st.store st.tenantId = some "undefined")
    (hcreate : env.creates 0 = .success s0 (some (some tid)))
    (h1 : ¬ tid = "")
    (hsend : env.sends 0 = .success chunks ending) :
    (submit env st).st.messages =
      st.messages ++ [{ role := .user, content := jsTrim st.inputValue },
        { role := .assistant, content := processChunks chunks }] ∧
    (submit env st).st.error = none ∧
    (submit env st).st.isStreaming = false ∧
    (submit env st).st.abortOpen = false ∧
    (submit env st).trace = [Event.createThreadCall, Event.sendStreamCall tid] ∧
    (submit env st).st.store = Storage.setThreadId st.store st.tenantId tid := by
  rcases hget with hget | hget | hget <;>
  · simp only [submit, sendMessage, initRun, threadResolve, hget, hcreate, hsend,
      ApiClient.createThread, ApiClient.sendMessageStream, applyOuterCatchFinally,
      hidle, htext, hten, hurl, h1, if_neg, if_false, Bool.false_eq_true, or_self,
      or_false, false_or, or_true, true_or, ite_false, ite_true, reduceCtorEq]
    cases ending <;>
      simp [setContent_append_two, List.append_assoc, h1]

/-- Accepted submission with a valid stored thread id makes exactly one
send call with that id and no creation call, whatever the send outcome —
including the 404 recovery path, whose re-entrant `_sendMessage` is
rejected by the `isStreaming` guard before reaching the network. -/
theorem submit_stored_trace_any (env : Env) (st : ChatState) (tid : String)
    (htext : ¬ jsTrim st.inputValue = "")
    (hidle : st.isStreaming = false)
    (hten : ¬ st.tenantId = "")
    (hurl : ¬ st.apiBaseUrl = "")
    (hget : Storage.getThreadId st.store st.tenantId = some tid)
    (h1 : ¬ tid = "") (h2 : ¬ tid = "undefined") :
    (submit env st).trace = [Event.sendStreamCall tid] := by
  cases hs : env.sends 0 with
  | success chunks ending =>
    exact (submit_stored_success env st tid chunks ending htext hidle hten hurl
      hget h1 h2 hs).2.2.2.2.1
  | failure s t =>
    by_cases h404 : s = 404
    · subst h404
      simp only [submit, sendMessage, initRun, threadResolve, hget, hs,
        ApiClient.sendMessageStream, applyOuterCatchFinally, hidle, htext, hten, hurl,
        h1, h2, if_neg, if_false, Bool.false_eq_true, or_self, or_false, false_or,
        ite_false, ite_true, reduceCtorEq]
      simp
    · simp only [submit, sendMessage, initRun, threadResolve, hget, hs,
        ApiClient.sendMessageStream, applyOuterCatchFinally, hidle, htext, hten, hurl,
        h1, h2, h404, if_neg, if_false, Bool.false_eq_true, or_self, or_false, false_or,
        ite_false, ite_true, reduceCtorEq]
      simp
  | abortedReq =>
    simp only [submit, sendMessage, initRun, threadResolve, hget, hs,
      ApiClient.sendMessageStream, applyOuterCatchFinally, hidle, htext, hten, hurl,
      h1, h2, if_neg, if_false, Bool.false_eq_true, or_self, or_false, false_or,
      ite_false, ite_true, reduceCtorEq]
    simp

/-- Reading back a key just written to an available store. -/
theorem kvGet_kvSet (k v : String) (l : List (String × String)) :
    kvGet k (kvSet k v l) = some v := by
  induction l with
  | nil => simp [kvSet, kvGet]
  | cons p rest ih =>
    obtain ⟨k', v'⟩ := p
    by_cases h : k' = k
    · simp [kvSet, kvGet, h]
    · simp [kvSet, kvGet, h, ih]

/-- An available store returns a thread id just persisted for a tenant. -/
theorem getThreadId_setThreadId (st : SessionStore) (t v : String)
    (h : st.available = true) :
    Storage.getThreadId (Storage.setThreadId st t v) t = some v := by
  simp [Storage.setThreadId, Storage.getThreadId, h, kvGet_kvSet]

/-! Section: Concrete scenarios used by the claims -/

/-- An idle, fully configured component with a valid stored thread id
`"T"` for tenant `"t1"` and the pending input `"hi"`. -/
def expiryInit : ChatState :=
  { messages := [], isStreaming := false, error := none, inputValue := "hi",
    store := ⟨true, [("radikari_chat:thread_id:t1", "T")]⟩, abortOpen := false,
    tenantId := "t1", apiBaseUrl := "https://api.example" }

/-- A network where thread creation would succeed with id `"T2"` but every
streaming send answers HTTP 404 (thread expired). -/
def expiryEnv : Env :=
  { creates := fun _ => .success 200 (some (some "T2")),
    sends := fun _ => .failure 404 "" }

/-- An SSE chunk carrying the delta `"Hel"`. -/
def chunkHel : String := "data: \x7b\"type\":\"text-delta\",\"delta\":\"Hel\"\x7d\n"

/-- An SSE chunk carrying the delta `"lo"`. -/
def chunkLo : String := "data: \x7b\"type\":\"text-delta\",\"delta\":\"lo\"\x7d\n"

/-- A network whose streaming send completes after delivering the `"Hel"`
and `"lo"` delta chunks. -/
def helloEnv : Env :=
  { creates := fun _ => .success 200 (some (some "T2")),
    sends := fun _ => .success [chunkHel, chunkLo] .complete }

/-- The first half of a `data: ` line cut mid-JSON at a chunk boundary. -/
def splitChunkA : String := "data: \x7b\"type\":\"text-delta\",\"de"

/-- The second half of the cut line, with the terminating newline. -/
def splitChunkB : String := "lta\":\"Hi\"\x7d\n"

/-! Section: The claims -/

/-- C1: the claim states that after `sendMessageStream` reports
`ThreadExpired` (HTTP 404) the controller clears the stored thread id,
removes the empty assistant placeholder, and attempts exactly one
additional `createThread` + `sendMessageStream` pair with the original
text.  The code clears the id and removes the placeholder, but the retry
never happens: `_sendMessageWithNewThread` re-invokes `_sendMessage`
while `isStreaming` is still `true`, so the re-entry guard rejects it.
Concretely, with a stored id `"T"` and a 404-answering network, the whole
submission performs exactly one send call and zero `createThread` calls,
ends with only the user message, restores the input box text, and reports
nothing. -/
theorem c1_expiry_recovery_retry_never_runs :
    (submit expiryEnv expiryInit).trace = [Event.sendStreamCall "T"] ∧
    (submit expiryEnv expiryInit).cIdx = 0 ∧
    (submit expiryEnv expiryInit).sIdx = 1 ∧
    (submit expiryEnv expiryInit).st.messages = [{ role := Role.user, content := "hi" }] ∧
    Storage.getThreadId (submit expiryEnv expiryInit).st.store "t1" = none ∧
    (submit expiryEnv expiryInit).st.inputValue = "hi" := by
  decide

/-- C2: the claim states that a `data: ` line split across a chunk
boundary is carried over and reassembled, so the decoded output equals
single-chunk processing.  The code splits and consumes every chunk
immediately with no carry-over buffer, so the split line's delta is
dropped: the two-chunk split of a `text-delta` line decodes to `""`,
while the same bytes in one chunk decode to `"Hi"`. -/
theorem c2_split_line_is_dropped :
    processChunks [splitChunkA, splitChunkB] = "" ∧
    processChunks [splitChunkA ++ splitChunkB] = "Hi" := by
  decide

/-- C3: the claim states that a `ThreadExpired` on both the first and the
retried attempt ends in `Idle` with a single user-visible error.  In the
code a second attempt never happens (see C1): already after the first
`ThreadExpired` the controller ends in `Idle` having made exactly one
send attempt, with `error` still unset, the user message kept and no
assistant message for the turn — so no user-visible error ever surfaces
for an expired thread. -/
theorem c3_expiry_ends_idle_with_no_error :
    (submit expiryEnv expiryInit).st.isStreaming = false ∧
    (submit expiryEnv expiryInit).st.error = none ∧
    (submit expiryEnv expiryInit).sIdx = 1 ∧
    (submit expiryEnv expiryInit).st.messages.filter
      (fun m => m.role == Role.assistant) = [] ∧
    (submit expiryEnv expiryInit).st.messages.filter
      (fun m => m.role == Role.user) = [{ role := Role.user, content := "hi" }] := by
  decide

/-- C4: for every non-empty, non-whitespace text submitted while the
controller is idle with tenant id and base URL set, a submission whose
stream completes successfully grows the message list by exactly two
entries — first the user message with the submitted (trimmed) text, then
the assistant message — whether the thread id came from storage or from a
fresh `createThread`. -/
theorem c4_success_grows_by_user_then_assistant
    (env : Env) (st : ChatState) (tid : String) (s0 : Nat) (chunks : List String)
    (htext : ¬ jsTrim st.inputValue = "")
    (hidle : st.isStreaming = false)
    (hten : ¬ st.tenantId = "")
    (hurl : ¬ st.apiBaseUrl = "")
    (hthread :
      (Storage.getThreadId st.store st.tenantId = some tid ∧
        ¬ tid = "" ∧ ¬ tid = "undefined") ∨
      ((Storage.getThreadId st.store st.tenantId = none ∨
        Storage.getThreadId st.store st.tenantId = some "" ∨
        Storage.getThreadId st.store st.tenantId = some "undefined") ∧
        env.creates 0 = .success s0 (some (some tid)) ∧ ¬ tid = ""))
    (hsend : env.sends 0 = .success chunks .complete) :
    (submit env st).st.messages =
      st.messages ++ [{ role := .user, content := jsTrim st.inputValue },
        { role := .assistant, content := processChunks chunks }] ∧
    (submit env st).st.isStreaming = false := by
  rcases hthread with ⟨hget, h1, h2⟩ | ⟨hget, hcreate, h1⟩
  · have h := submit_stored_success env st tid chunks .complete htext hidle hten hurl
      hget h1 h2 hsend
    exact ⟨h.1, h.2.2.1⟩
  · have h := submit_create_success env st s0 tid chunks .complete htext hidle hten hurl
      hget hcreate h1 hsend
    exact ⟨h.1, h.2.2.1⟩

/-- C4 witness: the concrete idle state with stored id `"T"` submitting
`"hi"` against the two-delta completing network. -/
theorem c4_success_grows_by_user_then_assistant_witness :
    (submit helloEnv expiryInit).st.messages =
      expiryInit.messages ++ [{ role := .user, content := jsTrim expiryInit.inputValue },
        { role := .assistant, content := processChunks [chunkHel, chunkLo] }] ∧
    (submit helloEnv expiryInit).st.isStreaming = false :=
  c4_success_grows_by_user_then_assistant helloEnv expiryInit "T" 200 [chunkHel, chunkLo]
    (by decide) (by decide) (by decide) (by decide)
    (Or.inl ⟨by decide, by decide, by decide⟩) (by decide)

/-- C5: an accepted submission with no stored thread id (absent or the
`"undefined"` sentinel) makes exactly one `createThread` call before the
single `sendMessageStream` call and persists the returned id (readable
back whenever the session store is available); with a valid stored id it
makes zero `createThread` calls, whatever the send outcome. -/
theorem c5_createThread_call_discipline
    (env : Env) (st : ChatState) (tid : String)
    (htext : ¬ jsTrim st.inputValue = "")
    (hidle : st.isStreaming = false)
    (hten : ¬ st.tenantId = "")
    (hurl : ¬ st.apiBaseUrl = "") :
    ((Storage.getThreadId st.store st.tenantId = none ∨
      Storage.getThreadId st.store st.tenantId = some "" ∨
      Storage.getThreadId st.store st.tenantId = some "undefined") →
      ∀ (s0 : Nat) (chunks : List String) (ending : StreamEnd),
        env.creates 0 = .success s0 (some (some tid)) → ¬ tid = "" →
        env.sends 0 = .success chunks ending →
        (submit env st).trace = [Event.createThreadCall, Event.sendStreamCall tid] ∧
        (st.store.available = true →
          Storage.getThreadId (submit env st).st.store st.tenantId = some tid)) ∧
    ((Storage.getThreadId st.store st.tenantId = some tid ∧
        ¬ tid = "" ∧ ¬ tid = "undefined") →
      (submit env st).trace.count Event.createThreadCall = 0) := by
  constructor
  · intro hget s0 chunks ending hcreate h1 hsend
    have h := submit_create_success env st s0 tid chunks ending htext hidle hten hurl
      hget hcreate h1 hsend
    refine ⟨h.2.2.2.2.1, fun hav => ?_⟩
    rw [h.2.2.2.2.2]
    exact getThreadId_setThreadId st.store st.tenantId tid hav
  · rintro ⟨hget, h1, h2⟩
    rw [submit_stored_trace_any env st tid htext hidle hten hurl hget h1 h2]
    rfl

/-- C5 witness: a component with empty storage creating thread `"T2"`
(one create, then one send, id persisted), against the completing
network. -/
theorem c5_createThread_call_discipline_witness :
    (submit helloEnv
        { expiryInit with store := ⟨true, []⟩ }).trace =
      [Event.createThreadCall, Event.sendStreamCall "T2"] ∧
    Storage.getThreadId
      (submit helloEnv { expiryInit with store := ⟨true, []⟩ }).st.store
      ({ expiryInit with store := (⟨true, []⟩ : SessionStore) } : ChatState).tenantId
      = some "T2" := by
  have h := (c5_createThread_call_discipline helloEnv
      { expiryInit with store := ⟨true, []⟩ } "T2"
      (by decide) (by decide) (by decide) (by decide)).1
    (Or.inl (by decide)) 200 [chunkHel, chunkLo] .complete
    (by decide) (by decide) (by decide)
  exact ⟨h.1, h.2 (by decide)⟩

/-- C6: delta events are applied in decode order, each concatenated onto
the accumulated content: for every chunk sequence the decoded text is the
in-order concatenation of all its `text-delta` payloads, and concretely
the `"Hel"` then `"lo"` chunks leave the assistant message at exactly
`"Hello"` after a full submission. -/
theorem c6_deltas_concatenated_in_order :
    (∀ chunks : List String, processChunks chunks = concatAll (allDeltas chunks)) ∧
    processChunks [chunkHel, chunkLo] = "Hello" ∧
    (submit helloEnv expiryInit).st.messages =
      [{ role := Role.user, content := "hi" },
        { role := Role.assistant, content := "Hello" }] :=
  ⟨processChunks_eq, by decide, by decide⟩

/-- C7: a `data: `-prefixed line whose JSON payload fails to parse is
swallowed and processing continues with the next line — dropping any line
that yields no delta leaves the decoded text unchanged — and concretely a
malformed line followed by a well-formed `text-delta` line applies only
the well-formed delta; lines without the `data: ` marker and parsed
events of any other type are likewise ignored. -/
theorem c7_malformed_lines_swallowed :
    (∀ (acc line : String) (rest : List String), extractDelta line = none →
        processLines acc (line :: rest) = processLines acc rest) ∧
    processChunk "" ("data: \x7boops\n" ++ "data: \x7b\"type\":\"text-delta\",\"delta\":\"ok\"\x7d\n") = "ok" ∧
    extractDelta "data: \x7boops" = none ∧
    extractDelta "event: ping" = none ∧
    extractDelta "data: \x7b\"type\":\"tool-call\",\"delta\":\"x\"\x7d" = none := by
  refine ⟨?_, by decide, by decide, by decide, by decide⟩
  intro acc line rest h
  simp [processLines, applyLine, h]

/-- C7 witness: dropping the concrete malformed line
`data: \x7boops` does not change what the following well-formed line
contributes. -/
theorem c7_malformed_lines_swallowed_witness :
    processLines ""
        ["data: \x7boops", "data: \x7b\"type\":\"text-delta\",\"delta\":\"ok\"\x7d"] =
      processLines "" ["data: \x7b\"type\":\"text-delta\",\"delta\":\"ok\"\x7d"] :=
  c7_malformed_lines_swallowed.1 ""
    "data: \x7boops"
    ["data: \x7b\"type\":\"text-delta\",\"delta\":\"ok\"\x7d"] (by decide)

/-- A network whose streaming send delivers the `"Hel"` chunk and is then
aborted (the reader's next `read()` rejects with `AbortError`). -/
def cancelEnv : Env :=
  { creates := fun _ => .success 200 (some (some "T2")),
    sends := fun _ => .success [chunkHel] .aborted }

/-- C8: cancelling an in-flight submission mid-stream leaves every
already-applied delta in the assistant message intact (no rollback), does
not set the user-visible error field, and returns the controller to idle
with the cancellation token dropped. -/
theorem c8_cancel_mid_stream_keeps_deltas_no_error
    (env : Env) (st : ChatState) (tid : String) (chunks : List String)
    (htext : ¬ jsTrim st.inputValue = "")
    (hidle : st.isStreaming = false)
    (hten : ¬ st.tenantId = "")
    (hurl : ¬ st.apiBaseUrl = "")
    (hget : Storage.getThreadId st.store st.tenantId = some tid)
    (h1 : ¬ tid = "") (h2 : ¬ tid = "undefined")
    (hsend : env.sends 0 = .success chunks .aborted) :
    (submit env st).st.messages =
      st.messages ++ [{ role := .user, content := jsTrim st.inputValue },
        { role := .assistant, content := processChunks chunks }] ∧
    (submit env st).st.error = none ∧
    (submit env st).st.isStreaming = false ∧
    (submit env st).st.abortOpen = false := by
  have h := submit_stored_success env st tid chunks .aborted htext hidle hten hurl
    hget h1 h2 hsend
  exact ⟨h.1, h.2.1, h.2.2.1, h.2.2.2.1⟩

/-- C8 witness: the concrete idle state submitting `"hi"` against a
network whose stream delivers `"Hel"` and is then aborted. -/
theorem c8_cancel_mid_stream_keeps_deltas_no_error_witness :
    (submit cancelEnv expiryInit).st.messages =
      expiryInit.messages ++ [{ role := .user, content := jsTrim expiryInit.inputValue },
        { role := .assistant, content := processChunks [chunkHel] }] ∧
    (submit cancelEnv expiryInit).st.error = none ∧
    (submit cancelEnv expiryInit).st.isStreaming = false ∧
    (submit cancelEnv expiryInit).st.abortOpen = false :=
  c8_cancel_mid_stream_keeps_deltas_no_error cancelEnv expiryInit "T" [chunkHel]
    (by decide) (by decide) (by decide) (by decide)
    (by decide) (by decide) (by decide) (by decide)

/-- C9: for every tenant id and store, `Storage.clearThreadId` followed by
`Storage.getThreadId` returns absent; and the operations degrade rather
than throw — with the backing store unavailable, reads return absent and
writes and removals return the store unchanged. -/
theorem c9_storage_clear_then_absent_and_degrades :
    (∀ (st : SessionStore) (t : String),
        Storage.getThreadId (Storage.clearThreadId st t) t = none) ∧
    (∀ (items : List (String × String)) (t : String),
        Storage.getThreadId ⟨false, items⟩ t = none) ∧
    (∀ (items : List (String × String)) (t v : String),
        Storage.setThreadId ⟨false, items⟩ t v = ⟨false, items⟩) ∧
    (∀ (items : List (String × String)) (t : String),
        Storage.clearThreadId ⟨false, items⟩ t = ⟨false, items⟩) := by
  refine ⟨fun st t => ?_, fun items t => ?_, fun items t v => ?_, fun items t => ?_⟩
  · obtain ⟨avail, items⟩ := st
    cases avail
    · simp [Storage.clearThreadId, Storage.getThreadId]
    · simp [Storage.clearThreadId, Storage.getThreadId, kvGet_kvRemove]
  · simp [Storage.getThreadId]
  · simp [Storage.setThreadId]
  · simp [Storage.clearThreadId]

/-- C10: however an invocation of the submit operation settles — success,
transport or malformed-response error, cancellation, expiry recovery, or
even rejection by the entry guard — a controller that started without an
in-flight stream ends with `isStreaming` false and no retained abort
controller, for every environment and fuel. -/
theorem c10_streaming_resource_always_released
    (env : Env) (fuel : Nat) (r : RunS)
    (h1 : r.st.isStreaming = false) (h2 : r.st.abortOpen = false) :
    (sendMessage env fuel r).st.isStreaming = false ∧
    (sendMessage env fuel r).st.abortOpen = false := by
  cases fuel with
  | zero => exact ⟨h1, h2⟩
  | succ n =>
    simp only [sendMessage]
    split
    · exact ⟨h1, h2⟩
    · exact applyOuterCatchFinally_flags _

/-- C10 witness: the expiry scenario run with fuel 2 releases the flag
and the abort controller. -/
theorem c10_streaming_resource_always_released_witness :
    (sendMessage expiryEnv 2 (initRun expiryInit)).st.isStreaming = false ∧
    (sendMessage expiryEnv 2 (initRun expiryInit)).st.abortOpen = false :=
  c10_streaming_resource_always_released expiryEnv 2 (initRun expiryInit)
    (by decide) (by decide)
